import Mathlib

/-!
Shallow embedding of `phd2_mqtt_bridge.py`: the bridge's mutable state, the
publish helpers, the Home Assistant discovery publication, and the per-line
processing performed by the PHD2 read loop, together with the per-connection
setup sequence and the reconnect loop's exception handling.

Python floats are modelled as exact rationals (ℚ); `math.sqrt` is modelled by
`sqrtQ`, which agrees with IEEE double sqrt on inputs whose square root is also
exactly representable (in particular on perfect squares such as 25.0).
-/

namespace PHD2Bridge

/-- Configuration defaults, from the environment-driven config block
(source lines 43-63).  The environment overrides are not modelled; the
defaults are the concrete values. -/
def BASE_TOPIC : String := "phd2/guiding"

/-- Default of the discovery topic root (environment variable default
"homeassistant", source line 55; the source calls it the discovery topic
namespace). -/
def DISCOVERY_BASE : String := "homeassistant"

/-- Default device identifier (source line 60). -/
def DEVICE_ID : String := "phd2_guiding_server"

/-- Default device name (source line 61). -/
def DEVICE_NAME : String := "PHD2 Guiding"

/-- Default manufacturer string (source line 62). -/
def DEVICE_MANUFACTURER : String := "Open PHD Guiding"

/-- Default model string (source line 63). -/
def DEVICE_MODEL : String := "PHD2 Server"

/-- Availability topic, source line 57. -/
def AVAILABILITY_TOPIC : String := BASE_TOPIC ++ "/availability"

/-- Device identity block sent with every discovery config (source lines 65-70). -/
structure DeviceInfo where
  identifiers : List String
  name : String
  manufacturer : String
  model : String
  deriving DecidableEq

/-- The DEVICE_INFO dictionary of source lines 65-70. -/
def DEVICE_INFO : DeviceInfo :=
  { identifiers := [DEVICE_ID]
    name := DEVICE_NAME
    manufacturer := DEVICE_MANUFACTURER
    model := DEVICE_MODEL }

/-- A decoded JSON value as `json.loads` hands it to the bridge.  Numbers are
modelled as exact rationals; `bool` is kept separate because Python's
`isinstance(x, (int, float))` check treats `bool` as a numeric type.
Array and object contents are irrelevant to every branch the bridge takes on
an RPC result, so they are contentless here. -/
inductive JVal where
  | num (q : ℚ)
  | bool (b : Bool)
  | str (s : String)
  | null
  | arr
  | obj
  deriving DecidableEq

/-- Numeric payload fields of a GuideStep event (source lines 379-388), each
optional because `msg.get` returns None for an absent key.  The guiding server
sends numbers for these keys; their exact values are carried as rationals. -/
structure GuideStepData where
  timestamp : Option ℚ
  raDistanceRaw : Option ℚ
  decDistanceRaw : Option ℚ
  snr : Option ℚ
  avgDist : Option ℚ
  dx : Option ℚ
  dy : Option ℚ
  deriving DecidableEq

/-- A decoded PHD2 message, classified the way the read loop classifies it
(source lines 351-436): a message with both "result" and "id" keys is an RPC
response; otherwise the "Event" key selects GuideStep, StarLost, another
event name, or no event at all. -/
inductive Msg where
  | rpcResponse (rpcId : ℤ) (result : JVal)
  | guideStep (d : GuideStepData)
  | starLost
  | otherEvent (name : String)
  | noEvent
  deriving DecidableEq

/-- One raw line from the PHD2 socket, after the decoding attempts of source
lines 332-346: undecodable UTF-8, blank after stripping, JSON parse failure,
or a successfully decoded message. -/
inductive RawLine where
  | badUtf8
  | blank
  | badJson
  | ok (m : Msg)
  deriving DecidableEq

/-- A discovery config payload (the dict of source lines 164-180 for numeric
sensors and lines 190-202 for the binary sensor); keys that the code only
sometimes inserts are options. -/
structure DiscoveryConfig where
  name : String
  state_topic : String
  unique_id : String
  availability_topic : String
  payload_available : String
  payload_not_available : String
  device : DeviceInfo
  state_class : Option String
  unit_of_measurement : Option String
  device_class : Option String
  icon : Option String
  payload_on : Option String
  payload_off : Option String
  deriving DecidableEq

/-- Payload of an MQTT publish: a textual numeric value (the f-string of
source line 226), a fixed token such as "ON"/"online", or a JSON discovery
config. -/
inductive Payload where
  | numeric (v : ℚ)
  | text (s : String)
  | config (c : DiscoveryConfig)
  deriving DecidableEq

/-- An observable action of the bridge: an MQTT publish (topic, payload, qos,
retain) or a warning/error-level log line, tagged with which diagnostic it is.
Debug/info logging carries no behavioral contract and is not modelled. -/
inductive Output where
  | publish (topic : String) (payload : Payload) (qos : ℕ) (retain : Bool)
  | logWarn (tag : String)
  | logError (tag : String)
  deriving DecidableEq

/-- The process-wide mutable state (source lines 78-81): the MQTT client
object itself is the transport collaborator and is not part of the state. -/
structure BridgeState where
  discovery_published : Bool
  guide_star_available : Option Bool
  PIXEL_SCALE_ARCSEC_PER_PX : Option ℚ
  deriving DecidableEq

/-- Initial process state (source lines 79-81). -/
def initialState : BridgeState :=
  { discovery_published := false
    guide_star_available := none
    PIXEL_SCALE_ARCSEC_PER_PX := none }

/-- One entry of the `sensors` list of source lines 99-156. -/
structure SensorDef where
  object_id : String
  name : String
  unit : Option String
  icon : Option String
  state_topic : String
  device_class : Option String
  deriving DecidableEq

/-- The seven numeric sensors of source lines 99-156. -/
def sensors : List SensorDef :=
  [ { object_id := "ra_error_arcsec", name := "PHD2 RA Error", unit := some "arcsec"
      icon := some "mdi:axis-arrow", state_topic := BASE_TOPIC ++ "/ra_error_arcsec"
      device_class := none }
  , { object_id := "dec_error_arcsec", name := "PHD2 Dec Error", unit := some "arcsec"
      icon := some "mdi:axis-arrow", state_topic := BASE_TOPIC ++ "/dec_error_arcsec"
      device_class := none }
  , { object_id := "total_error_arcsec", name := "PHD2 Total Error", unit := some "arcsec"
      icon := some "mdi:crosshairs-gps", state_topic := BASE_TOPIC ++ "/total_error_arcsec"
      device_class := none }
  , { object_id := "dx_px", name := "PHD2 dx", unit := some "px"
      icon := some "mdi:axis-arrow", state_topic := BASE_TOPIC ++ "/dx_px"
      device_class := none }
  , { object_id := "dy_px", name := "PHD2 dy", unit := some "px"
      icon := some "mdi:axis-arrow", state_topic := BASE_TOPIC ++ "/dy_px"
      device_class := none }
  , { object_id := "snr", name := "PHD2 SNR", unit := none
      icon := some "mdi:signal", state_topic := BASE_TOPIC ++ "/snr"
      device_class := none }
  , { object_id := "avg_dist", name := "PHD2 Avg Dist", unit := some "arcsec"
      icon := some "mdi:chart-bell-curve", state_topic := BASE_TOPIC ++ "/avg_dist"
      device_class := none } ]

/-- The discovery config built for a numeric sensor (source lines 160-180). -/
def discoveryConfigOf (s : SensorDef) : DiscoveryConfig :=
  { name := s.name
    state_topic := s.state_topic
    unique_id := DEVICE_ID ++ "_" ++ s.object_id
    availability_topic := AVAILABILITY_TOPIC
    payload_available := "online"
    payload_not_available := "offline"
    device := DEVICE_INFO
    state_class := some "measurement"
    unit_of_measurement := s.unit
    device_class := s.device_class
    icon := s.icon
    payload_on := none
    payload_off := none }

/-- Discovery topic for a numeric sensor (source line 162). -/
def discoveryTopicOf (s : SensorDef) : String :=
  DISCOVERY_BASE ++ "/sensor/" ++ DEVICE_ID ++ "/" ++ s.object_id ++ "/config"

/-- The binary sensor's discovery config (source lines 190-202). -/
def binarySensorConfig : DiscoveryConfig :=
  { name := "PHD2 Guide Star Available"
    state_topic := BASE_TOPIC ++ "/guide_star_available"
    unique_id := DEVICE_ID ++ "_guide_star_available"
    availability_topic := AVAILABILITY_TOPIC
    payload_available := "online"
    payload_not_available := "offline"
    device := DEVICE_INFO
    state_class := none
    unit_of_measurement := none
    device_class := some "connectivity"
    icon := some "mdi:star"
    payload_on := some "ON"
    payload_off := some "OFF" }

/-- Discovery topic for the binary sensor (source line 188). -/
def binarySensorTopic : String :=
  DISCOVERY_BASE ++ "/binary_sensor/" ++ DEVICE_ID ++ "/guide_star_available/config"

/-- `publish_discovery` (source lines 88-208): given the current
discovery_published flag, returns the new flag and the publishes performed.
If the flag is already set it returns immediately; otherwise it publishes one
retained qos-1 config per numeric sensor, then the binary sensor config, and
sets the flag. -/
def publish_discovery (discovery_published : Bool) : Bool × List Output :=
  if discovery_published then (true, [])
  else
    (true,
      (sensors.map fun s =>
        Output.publish (discoveryTopicOf s) (Payload.config (discoveryConfigOf s)) 1 true)
      ++ [Output.publish binarySensorTopic (Payload.config binarySensorConfig) 1 true])

/-- `set_availability` (source lines 211-218). -/
def set_availability (online : Bool) : List Output :=
  [Output.publish AVAILABILITY_TOPIC (Payload.text (if online then "online" else "offline")) 1 true]

/-- `publish_numeric` (source lines 221-226): skip when the value is None,
otherwise publish the value, qos 0, retained. -/
def publish_numeric (topic : String) (value : Option ℚ) : List Output :=
  match value with
  | none => []
  | some v => [Output.publish topic (Payload.numeric v) 0 true]

/-- `publish_guide_star_available` (source lines 229-237): publish "ON"/"OFF"
and update the stored flag only when the stored tri-state flag differs from
the incoming boolean (Python's `None == available` is false for both
booleans). -/
def publish_guide_star_available (st : BridgeState) (available : Bool) :
    BridgeState × List Output :=
  if st.guide_star_available = some available then (st, [])
  else
    ({ st with guide_star_available := some available },
      [Output.publish (BASE_TOPIC ++ "/guide_star_available")
        (Payload.text (if available then "ON" else "OFF")) 0 true])

/-- `on_connect` (source lines 244-251): on rc = 0 publish availability online
and run discovery; otherwise log an error. -/
def on_connect (discovery_published : Bool) (rc : ℤ) : Bool × List Output :=
  if rc = 0 then
    ((publish_discovery discovery_published).1,
      set_availability true ++ (publish_discovery discovery_published).2)
  else (discovery_published, [Output.logError "mqtt-connect-failed"])

/-- Connection-scoped RPC id for get_app_state (source line 311). -/
def APP_STATE_ID : ℤ := 1

/-- Connection-scoped RPC id for get_pixel_scale (source line 312). -/
def PIXEL_SCALE_ID : ℤ := 2

/-- Python's `float(result)` restricted to the values that pass the
`isinstance(result, (int, float))` check of source line 360: JSON numbers
pass and convert to themselves; booleans pass (bool is a subclass of int in
Python) and convert to 1.0/0.0; strings, null, arrays and objects fail. -/
def pyFloatOf : JVal → Option ℚ
  | .num q => some q
  | .bool b => some (if b then 1 else 0)
  | _ => none

/-- Exact-rational model of `math.sqrt`: on a rational whose square root is a
rational this returns that root exactly (IEEE double sqrt is also exact on
such exactly-representable inputs, e.g. 25.0 ↦ 5.0); elsewhere it stands in
for the rounded IEEE result. -/
def sqrtQ (q : ℚ) : ℚ := (Nat.sqrt q.num.toNat : ℚ) / (Nat.sqrt q.den : ℚ)

/-- The arcsecond part of GuideStep handling (source lines 391-401 and
415-420): derive the optional arcsecond values (with a warning when the pixel
scale is unknown), then publish the three arcsec topics only when the pixel
scale is known.  The outputs appear in program order: the warning (if any)
precedes the publishes. -/
def guideStepMetricsOut (st : BridgeState) (d : GuideStepData) : List Output :=
  let derived : Option ℚ × Option ℚ × Option ℚ × List Output :=
    match st.PIXEL_SCALE_ARCSEC_PER_PX, d.raDistanceRaw, d.decDistanceRaw with
    | some scale, some ra, some dec =>
        (some (ra * scale), some (dec * scale),
          some (sqrtQ (ra ^ 2 + dec ^ 2) * scale), [])
    | none, _, _ => (none, none, none, [Output.logWarn "pixel-scale-not-yet-known"])
    | some _, _, _ => (none, none, none, [])
  let arcsecOut : List Output :=
    if st.PIXEL_SCALE_ARCSEC_PER_PX.isSome then
      publish_numeric (BASE_TOPIC ++ "/ra_error_arcsec") derived.1
      ++ publish_numeric (BASE_TOPIC ++ "/dec_error_arcsec") derived.2.1
      ++ publish_numeric (BASE_TOPIC ++ "/total_error_arcsec") derived.2.2.1
    else []
  derived.2.2.2 ++ arcsecOut

/-- The unconditional pixel-domain publishes of a GuideStep (source lines
422-426). -/
def pixelMetricsOut (d : GuideStepData) : List Output :=
  publish_numeric (BASE_TOPIC ++ "/dx_px") d.dx
  ++ publish_numeric (BASE_TOPIC ++ "/dy_px") d.dy
  ++ publish_numeric (BASE_TOPIC ++ "/snr") d.snr
  ++ publish_numeric (BASE_TOPIC ++ "/avg_dist") d.avgDist

/-- Processing of one decoded PHD2 message by the read loop (source lines
351-436), returning the new state and the outputs in program order. -/
def handleMsg (st : BridgeState) (m : Msg) : BridgeState × List Output :=
  match m with
  | .rpcResponse rpcId result =>
      -- lines 351-368
      if rpcId = APP_STATE_ID then (st, [])
      else if rpcId = PIXEL_SCALE_ID then
        match pyFloatOf result with
        | some q => ({ st with PIXEL_SCALE_ARCSEC_PER_PX := some q }, [])
        | none => (st, [Output.logError "unexpected-get-pixel-scale-result"])
      else (st, [])
  | .guideStep d =>
      -- lines 378-429: arcsec metrics, pixel metrics, then guide star flag
      ((publish_guide_star_available st true).1,
        guideStepMetricsOut st d ++ pixelMetricsOut d
          ++ (publish_guide_star_available st true).2)
  | .starLost =>
      -- lines 431-433
      ((publish_guide_star_available st false).1,
        Output.logWarn "star-lost" :: (publish_guide_star_available st false).2)
  | .otherEvent _ => (st, [])
  | .noEvent => (st, [])

/-- Processing of one raw line (source lines 329-346 wrapping `handleMsg`):
undecodable UTF-8 and unparsable JSON each log exactly one warning and skip
the line; a blank line is skipped silently. -/
def processLine (st : BridgeState) (l : RawLine) : BridgeState × List Output :=
  match l with
  | .badUtf8 => (st, [Output.logWarn "unicode-decode-error"])
  | .blank => (st, [])
  | .badJson => (st, [Output.logWarn "json-decode-error"])
  | .ok m => handleMsg st m

/-- The read loop over a list of raw lines, threading the state and
concatenating outputs in order. -/
def processLines (st : BridgeState) : List RawLine → BridgeState × List Output
  | [] => (st, [])
  | l :: ls =>
      ((processLines (processLine st l).1 ls).1,
        (processLine st l).2 ++ (processLines (processLine st l).1 ls).2)

/-- One action of the per-connection setup (source lines 310-327). -/
inductive SetupAction where
  | sendRPC (method : String) (rpcId : ℤ)
  | resetPixelScale
  deriving DecidableEq

/-- The per-connection setup sequence exactly as the source performs it
(lines 315-327): send get_app_state, send get_pixel_scale, then reset the
pixel scale to None.  Only after this does the read loop start. -/
def connectionSetup : List SetupAction :=
  [ SetupAction.sendRPC "get_app_state" APP_STATE_ID
  , SetupAction.sendRPC "get_pixel_scale" PIXEL_SCALE_ID
  , SetupAction.resetPixelScale ]

/-- Whether a setup action is one of the two RPC sends. -/
def isSend : SetupAction → Bool
  | .sendRPC _ _ => true
  | .resetPixelScale => false

/-- One full connection: the setup (whose only state effect is resetting the
pixel scale to None, line 327) followed by the read loop over the received
lines. -/
def run_connection (st : BridgeState) (lines : List RawLine) : BridgeState × List Output :=
  processLines { st with PIXEL_SCALE_ARCSEC_PER_PX := none } lines

/-- How one iteration of the `while True` connection loop ends (source lines
302-450): the stream ends cleanly (the `for` loop exhausts the file object),
a ConnectionRefusedError/OSError is raised, or the operator interrupts. -/
inductive StreamOutcome where
  | endOfStream
  | socketError
  | interrupt
  deriving DecidableEq

/-- The tail behavior of one loop iteration (source lines 438-450): what is
logged at error level, how long the iteration sleeps before the next connect
attempt, whether the `finally` block closes the socket, and whether the
`while True` loop continues. -/
structure LoopStep where
  closesSocket : Bool
  logsError : Bool
  delaySeconds : ℕ
  continuesLoop : Bool
  deriving DecidableEq

/-- The exception handling of source lines 438-450: an OSError logs the error
and sleeps 5 seconds; a KeyboardInterrupt breaks out of the loop; a clean
end-of-stream falls through the try block with no log and no sleep.  The
`finally` block closes the socket in every case. -/
def loopTail : StreamOutcome → LoopStep
  | .endOfStream =>
      { closesSocket := true, logsError := false, delaySeconds := 0, continuesLoop := true }
  | .socketError =>
      { closesSocket := true, logsError := true, delaySeconds := 5, continuesLoop := true }
  | .interrupt =>
      { closesSocket := true, logsError := false, delaySeconds := 0, continuesLoop := false }

/-- The connection loop over a list of iteration outcomes: it keeps running
until an iteration whose `loopTail` says not to continue. -/
def runLoop : List StreamOutcome → List LoopStep
  | [] => []
  | o :: os => if (loopTail o).continuesLoop then loopTail o :: runLoop os else [loopTail o]

/-- Does this output publish to topic t? -/
def isPublishTo (t : String) : Output → Bool
  | .publish t2 _ _ _ => t2 == t
  | _ => false

/-- Number of publishes to topic t among the outputs. -/
def pubCount (outs : List Output) (t : String) : ℕ :=
  (outs.filter (isPublishTo t)).length

/-- Is this output any publish at all? -/
def isPublish : Output → Bool
  | .publish _ _ _ _ => true
  | _ => false

/-- The publishes among the outputs, in order. -/
def publishesOf (outs : List Output) : List Output := outs.filter isPublish

/-- Is this output a warning-level log line? -/
def isWarn : Output → Bool
  | .logWarn _ => true
  | _ => false

/-- Number of warning-level log lines among the outputs. -/
def warnCount (outs : List Output) : ℕ := (outs.filter isWarn).length

/-- Does this raw line set the pixel scale when processed, i.e. is it an RPC
response whose id is the pixel-scale id and whose result passes the numeric
check? -/
def setsPixelScale : RawLine → Bool
  | .ok (.rpcResponse rpcId result) => rpcId == PIXEL_SCALE_ID && (pyFloatOf result).isSome
  | _ => false

/-- Is this output a discovery-config publish? -/
def isConfigPublish : Output → Bool
  | .publish _ (Payload.config _) _ _ => true
  | _ => false

/-- Number of discovery-config publishes among the outputs. -/
def configPubCount (outs : List Output) : ℕ := (outs.filter isConfigPublish).length

/-- A GuideStep event carrying no payload fields at all. -/
def emptyGuideStep : GuideStepData :=
  { timestamp := none, raDistanceRaw := none, decDistanceRaw := none
    snr := none, avgDist := none, dx := none, dy := none }

/-- The event sequence StarLost, StarLost, GuideStep, StarLost of the spec's
transition example, as raw lines of one connection. -/
def starLostSeq : List RawLine :=
  [ RawLine.ok Msg.starLost
  , RawLine.ok Msg.starLost
  , RawLine.ok (Msg.guideStep emptyGuideStep)
  , RawLine.ok Msg.starLost ]

/-! ### Helper lemmas -/

lemma pubCount_nil (t : String) : pubCount [] t = 0 := rfl

lemma pubCount_append (a b : List Output) (t : String) :
    pubCount (a ++ b) t = pubCount a t + pubCount b t := by
  simp [pubCount, List.filter_append]

lemma pubCount_cons_warn (s : String) (outs : List Output) (t : String) :
    pubCount (Output.logWarn s :: outs) t = pubCount outs t := by
  simp [pubCount, isPublishTo]

lemma pubCount_publish_numeric (t u : String) (v : Option ℚ) :
    pubCount (publish_numeric t v) u
      = if (t == u) then (if v.isSome then 1 else 0) else 0 := by
  cases v <;> cases h : (t == u) <;>
    simp [publish_numeric, pubCount, isPublishTo, h]

lemma gsa_state_eq (st : BridgeState) (b : Bool) :
    (publish_guide_star_available st b).1
      = if st.guide_star_available = some b then st
        else { st with guide_star_available := some b } := by
  unfold publish_guide_star_available
  split <;> simp_all

lemma gsa_flag_eq (st : BridgeState) (b : Bool) :
    (publish_guide_star_available st b).1.guide_star_available = some b := by
  unfold publish_guide_star_available
  split <;> simp_all

lemma gsa_scale_eq (st : BridgeState) (b : Bool) :
    (publish_guide_star_available st b).1.PIXEL_SCALE_ARCSEC_PER_PX
      = st.PIXEL_SCALE_ARCSEC_PER_PX := by
  unfold publish_guide_star_available
  split <;> simp

lemma pubCount_gsa_self (st : BridgeState) (b : Bool) :
    pubCount (publish_guide_star_available st b).2 (BASE_TOPIC ++ "/guide_star_available")
      = if st.guide_star_available = some b then 0 else 1 := by
  unfold publish_guide_star_available
  split <;> simp_all [pubCount, isPublishTo]

lemma pubCount_gsa_ne (st : BridgeState) (b : Bool) (t : String)
    (h : ((BASE_TOPIC ++ "/guide_star_available") == t) = false) :
    pubCount (publish_guide_star_available st b).2 t = 0 := by
  unfold publish_guide_star_available
  split <;> simp_all [pubCount, isPublishTo]

lemma pubCount_pixelMetricsOut_ne (d : GuideStepData) (t : String)
    (h1 : ((BASE_TOPIC ++ "/dx_px") == t) = false)
    (h2 : ((BASE_TOPIC ++ "/dy_px") == t) = false)
    (h3 : ((BASE_TOPIC ++ "/snr") == t) = false)
    (h4 : ((BASE_TOPIC ++ "/avg_dist") == t) = false) :
    pubCount (pixelMetricsOut d) t = 0 := by
  simp [pixelMetricsOut, pubCount_append, pubCount_publish_numeric, h1, h2, h3, h4]

lemma guideStepMetricsOut_scale_none (st : BridgeState) (d : GuideStepData)
    (h : st.PIXEL_SCALE_ARCSEC_PER_PX = none) :
    guideStepMetricsOut st d = [Output.logWarn "pixel-scale-not-yet-known"] := by
  simp [guideStepMetricsOut, h]

lemma guideStepMetricsOut_both (st : BridgeState) (d : GuideStepData)
    (s ra dec : ℚ)
    (h : st.PIXEL_SCALE_ARCSEC_PER_PX = some s)
    (hra : d.raDistanceRaw = some ra)
    (hdec : d.decDistanceRaw = some dec) :
    guideStepMetricsOut st d =
      [ Output.publish (BASE_TOPIC ++ "/ra_error_arcsec") (Payload.numeric (ra * s)) 0 true
      , Output.publish (BASE_TOPIC ++ "/dec_error_arcsec") (Payload.numeric (dec * s)) 0 true
      , Output.publish (BASE_TOPIC ++ "/total_error_arcsec")
          (Payload.numeric (sqrtQ (ra ^ 2 + dec ^ 2) * s)) 0 true ] := by
  simp [guideStepMetricsOut, h, hra, hdec, publish_numeric]

lemma guideStepMetricsOut_missing (st : BridgeState) (d : GuideStepData) (s : ℚ)
    (h : st.PIXEL_SCALE_ARCSEC_PER_PX = some s)
    (hm : d.raDistanceRaw = none ∨ d.decDistanceRaw = none) :
    guideStepMetricsOut st d = [] := by
  rcases hm with hm | hm
  · rcases hdec : d.decDistanceRaw with _ | dec <;>
      simp [guideStepMetricsOut, h, hm, hdec, publish_numeric]
  · rcases hra : d.raDistanceRaw with _ | ra <;>
      simp [guideStepMetricsOut, h, hm, hra, publish_numeric]

lemma handleMsg_guideStep_eq (st : BridgeState) (d : GuideStepData) :
    handleMsg st (Msg.guideStep d)
      = ((publish_guide_star_available st true).1,
          guideStepMetricsOut st d ++ pixelMetricsOut d
            ++ (publish_guide_star_available st true).2) := rfl

lemma handleMsg_starLost_eq (st : BridgeState) :
    handleMsg st Msg.starLost
      = ((publish_guide_star_available st false).1,
          Output.logWarn "star-lost" :: (publish_guide_star_available st false).2) := rfl

lemma pubCount_guideStepMetricsOut_ne (st : BridgeState) (d : GuideStepData) (t : String)
    (h1 : ((BASE_TOPIC ++ "/ra_error_arcsec") == t) = false)
    (h2 : ((BASE_TOPIC ++ "/dec_error_arcsec") == t) = false)
    (h3 : ((BASE_TOPIC ++ "/total_error_arcsec") == t) = false) :
    pubCount (guideStepMetricsOut st d) t = 0 := by
  rcases hp : st.PIXEL_SCALE_ARCSEC_PER_PX with _ | s
  · rw [guideStepMetricsOut_scale_none st d hp]
    simp [pubCount, isPublishTo]
  · rcases hra : d.raDistanceRaw with _ | ra
    · rw [guideStepMetricsOut_missing st d s hp (Or.inl hra)]; rfl
    · rcases hdec : d.decDistanceRaw with _ | dec
      · rw [guideStepMetricsOut_missing st d s hp (Or.inr hdec)]; rfl
      · rw [guideStepMetricsOut_both st d s ra dec hp hra hdec]
        simp [pubCount, isPublishTo, h1, h2, h3]

lemma pubCount_pixelMetricsOut_dx (d : GuideStepData) :
    pubCount (pixelMetricsOut d) (BASE_TOPIC ++ "/dx_px")
      = if d.dx.isSome then 1 else 0 := by
  simp [pixelMetricsOut, pubCount_append, pubCount_publish_numeric,
    (by decide : ((BASE_TOPIC ++ "/dy_px") == (BASE_TOPIC ++ "/dx_px")) = false),
    (by decide : ((BASE_TOPIC ++ "/snr") == (BASE_TOPIC ++ "/dx_px")) = false),
    (by decide : ((BASE_TOPIC ++ "/avg_dist") == (BASE_TOPIC ++ "/dx_px")) = false)]

lemma pubCount_pixelMetricsOut_dy (d : GuideStepData) :
    pubCount (pixelMetricsOut d) (BASE_TOPIC ++ "/dy_px")
      = if d.dy.isSome then 1 else 0 := by
  simp [pixelMetricsOut, pubCount_append, pubCount_publish_numeric,
    (by decide : ((BASE_TOPIC ++ "/dx_px") == (BASE_TOPIC ++ "/dy_px")) = false),
    (by decide : ((BASE_TOPIC ++ "/snr") == (BASE_TOPIC ++ "/dy_px")) = false),
    (by decide : ((BASE_TOPIC ++ "/avg_dist") == (BASE_TOPIC ++ "/dy_px")) = false)]

lemma pubCount_pixelMetricsOut_snr (d : GuideStepData) :
    pubCount (pixelMetricsOut d) (BASE_TOPIC ++ "/snr")
      = if d.snr.isSome then 1 else 0 := by
  simp [pixelMetricsOut, pubCount_append, pubCount_publish_numeric,
    (by decide : ((BASE_TOPIC ++ "/dx_px") == (BASE_TOPIC ++ "/snr")) = false),
    (by decide : ((BASE_TOPIC ++ "/dy_px") == (BASE_TOPIC ++ "/snr")) = false),
    (by decide : ((BASE_TOPIC ++ "/avg_dist") == (BASE_TOPIC ++ "/snr")) = false)]

lemma pubCount_pixelMetricsOut_avg (d : GuideStepData) :
    pubCount (pixelMetricsOut d) (BASE_TOPIC ++ "/avg_dist")
      = if d.avgDist.isSome then 1 else 0 := by
  simp [pixelMetricsOut, pubCount_append, pubCount_publish_numeric,
    (by decide : ((BASE_TOPIC ++ "/dx_px") == (BASE_TOPIC ++ "/avg_dist")) = false),
    (by decide : ((BASE_TOPIC ++ "/dy_px") == (BASE_TOPIC ++ "/avg_dist")) = false),
    (by decide : ((BASE_TOPIC ++ "/snr") == (BASE_TOPIC ++ "/avg_dist")) = false)]

lemma processLine_scale (st : BridgeState) (l : RawLine)
    (h : setsPixelScale l = false) :
    (processLine st l).1.PIXEL_SCALE_ARCSEC_PER_PX = st.PIXEL_SCALE_ARCSEC_PER_PX := by
  cases l with
  | badUtf8 => rfl
  | blank => rfl
  | badJson => rfl
  | ok m =>
    cases m with
    | rpcResponse rpcId r =>
        simp only [setsPixelScale, Bool.and_eq_false_iff] at h
        simp only [processLine, handleMsg]
        by_cases h1 : rpcId = APP_STATE_ID
        · simp [h1]
        · by_cases h2 : rpcId = PIXEL_SCALE_ID
          · subst h2
            rcases hr : pyFloatOf r with _ | q
            · simp [h1, hr]
            · exfalso
              rcases h with h | h
              · simp at h
              · rw [hr] at h; simp at h
          · simp [h1, h2]
    | guideStep d => simp [processLine, handleMsg_guideStep_eq, gsa_scale_eq]
    | starLost => simp [processLine, handleMsg_starLost_eq, gsa_scale_eq]
    | otherEvent n => rfl
    | noEvent => rfl

lemma processLines_append (xs ys : List RawLine) (st : BridgeState) :
    processLines st (xs ++ ys)
      = ((processLines (processLines st xs).1 ys).1,
          (processLines st xs).2 ++ (processLines (processLines st xs).1 ys).2) := by
  induction xs generalizing st with
  | nil => simp [processLines]
  | cons l ls ih => simp [processLines, ih]

lemma processLines_scale (lines : List RawLine) (st : BridgeState)
    (h : ∀ l ∈ lines, setsPixelScale l = false) :
    (processLines st lines).1.PIXEL_SCALE_ARCSEC_PER_PX
      = st.PIXEL_SCALE_ARCSEC_PER_PX := by
  induction lines generalizing st with
  | nil => rfl
  | cons l ls ih =>
      have h1 := h l (List.mem_cons_self l ls)
      have h2 : ∀ x ∈ ls, setsPixelScale x = false :=
        fun x hx => h x (List.mem_cons_of_mem _ hx)
      simp only [processLines]
      rw [ih _ h2, processLine_scale st l h1]

lemma processLines_badJson (st : BridgeState) (post : List RawLine) :
    processLines st (RawLine.badJson :: post)
      = ((processLines st post).1,
          Output.logWarn "json-decode-error" :: (processLines st post).2) := by
  simp [processLines, processLine]

lemma processLines_badUtf8 (st : BridgeState) (post : List RawLine) :
    processLines st (RawLine.badUtf8 :: post)
      = ((processLines st post).1,
          Output.logWarn "unicode-decode-error" :: (processLines st post).2) := by
  simp [processLines, processLine]

lemma publishesOf_append (a b : List Output) :
    publishesOf (a ++ b) = publishesOf a ++ publishesOf b := by
  simp [publishesOf, List.filter_append]

lemma publishesOf_cons_warn (s : String) (outs : List Output) :
    publishesOf (Output.logWarn s :: outs) = publishesOf outs := by
  simp [publishesOf, isPublish]

lemma warnCount_append (a b : List Output) :
    warnCount (a ++ b) = warnCount a + warnCount b := by
  simp [warnCount, List.filter_append]

lemma warnCount_cons_warn (s : String) (outs : List Output) :
    warnCount (Output.logWarn s :: outs) = warnCount outs + 1 := by
  simp [warnCount, isWarn, List.filter]

lemma runLoop_no_interrupt (outs : List StreamOutcome)
    (h : ∀ o ∈ outs, o ≠ StreamOutcome.interrupt) :
    runLoop outs = outs.map loopTail := by
  induction outs with
  | nil => rfl
  | cons o os ih =>
      have ho := h o (List.mem_cons_self o os)
      have hcont : (loopTail o).continuesLoop = true := by
        cases o <;> simp_all [loopTail]
      simp [runLoop, hcont, ih (fun x hx => h x (List.mem_cons_of_mem _ hx))]

/-! ### Claims -/

/-- Claim C1: a message is published to the guide_star_available topic exactly
when the incoming observation differs from the stored tri-state flag (unknown
counts as different from both booleans), the stored flag is updated exactly on
a publish, and on the sequence StarLost, StarLost, GuideStep, StarLost from
the unknown state the cumulative publish counts after each prefix are
1, 1, 2, 3 — i.e. publishes occur at the first StarLost, the GuideStep, and
the final StarLost only. -/
theorem c1_guide_star_publish_on_transition :
    (∀ (st : BridgeState) (b : Bool),
        pubCount (publish_guide_star_available st b).2 (BASE_TOPIC ++ "/guide_star_available")
            = (if st.guide_star_available = some b then 0 else 1)
          ∧ (publish_guide_star_available st b).1
            = (if st.guide_star_available = some b then st
               else { st with guide_star_available := some b }))
    ∧ (∀ (st : BridgeState) (d : GuideStepData),
        pubCount (handleMsg st (Msg.guideStep d)).2 (BASE_TOPIC ++ "/guide_star_available")
            = (if st.guide_star_available = some true then 0 else 1)
          ∧ (handleMsg st (Msg.guideStep d)).1.guide_star_available = some true)
    ∧ (∀ st : BridgeState,
        pubCount (handleMsg st Msg.starLost).2 (BASE_TOPIC ++ "/guide_star_available")
            = (if st.guide_star_available = some false then 0 else 1)
          ∧ (handleMsg st Msg.starLost).1.guide_star_available = some false)
    ∧ pubCount (processLines initialState (starLostSeq.take 1)).2
        (BASE_TOPIC ++ "/guide_star_available") = 1
    ∧ pubCount (processLines initialState (starLostSeq.take 2)).2
        (BASE_TOPIC ++ "/guide_star_available") = 1
    ∧ pubCount (processLines initialState (starLostSeq.take 3)).2
        (BASE_TOPIC ++ "/guide_star_available") = 2
    ∧ pubCount (processLines initialState starLostSeq).2
        (BASE_TOPIC ++ "/guide_star_available") = 3 := by
  refine ⟨?_, ?_, ?_, by decide, by decide, by decide, by decide⟩
  · exact fun st b => ⟨pubCount_gsa_self st b, gsa_state_eq st b⟩
  · intro st d
    constructor
    · simp only [handleMsg_guideStep_eq, pubCount_append]
      rw [pubCount_guideStepMetricsOut_ne st d _ (by decide) (by decide) (by decide),
          pubCount_pixelMetricsOut_ne d _ (by decide) (by decide) (by decide) (by decide),
          pubCount_gsa_self]
      simp
    · simp only [handleMsg_guideStep_eq]
      exact gsa_flag_eq st true
  · intro st
    constructor
    · simp only [handleMsg_starLost_eq, pubCount_cons_warn]
      exact pubCount_gsa_self st false
    · simp only [handleMsg_starLost_eq]
      exact gsa_flag_eq st false

/-- Claim C2 counterexample: two RPC responses carrying the pixel-scale id on
the same connection each set the scale factor — the second one sets it again
(to 0.7 after 0.5), refuting "set at most once per connection". -/
theorem c2_counterexample :
    (processLines initialState
        [RawLine.ok (Msg.rpcResponse PIXEL_SCALE_ID (JVal.num (1/2)))]).1.PIXEL_SCALE_ARCSEC_PER_PX
      = some (1/2)
    ∧ (processLines initialState
        [ RawLine.ok (Msg.rpcResponse PIXEL_SCALE_ID (JVal.num (1/2)))
        , RawLine.ok (Msg.rpcResponse PIXEL_SCALE_ID (JVal.num (7/10)))]).1.PIXEL_SCALE_ARCSEC_PER_PX
      = some (7/10)
    ∧ ((1 : ℚ)/2) ≠ 7/10 := by
  refine ⟨?_, ?_, by norm_num⟩ <;>
    simp [processLines, processLine, handleMsg, PIXEL_SCALE_ID, APP_STATE_ID, pyFloatOf]

/-- Claim C2 (amended): the scale factor is unknown at connection start; the
only messages that change it are RPC responses whose id is the pixel-scale id
and whose result passes the numeric check, and every such response sets it to
its result (there is no at-most-once guard). -/
theorem c2_pixel_scale_amended :
    (∀ (st : BridgeState) (lines : List RawLine),
        run_connection st lines
          = processLines { st with PIXEL_SCALE_ARCSEC_PER_PX := none } lines)
    ∧ (∀ (st : BridgeState) (l : RawLine), setsPixelScale l = false →
        (processLine st l).1.PIXEL_SCALE_ARCSEC_PER_PX = st.PIXEL_SCALE_ARCSEC_PER_PX)
    ∧ (∀ (st : BridgeState) (r : JVal) (q : ℚ), pyFloatOf r = some q →
        (handleMsg st (Msg.rpcResponse PIXEL_SCALE_ID r)).1.PIXEL_SCALE_ARCSEC_PER_PX
          = some q) := by
  refine ⟨fun st lines => rfl, processLine_scale, ?_⟩
  intro st r q hq
  simp [handleMsg, hq, PIXEL_SCALE_ID, APP_STATE_ID]

/-- Witness for the amended claim C2 at concrete inputs. -/
theorem c2_pixel_scale_amended_witness :
    (processLine initialState (RawLine.ok Msg.starLost)).1.PIXEL_SCALE_ARCSEC_PER_PX
        = initialState.PIXEL_SCALE_ARCSEC_PER_PX
    ∧ (handleMsg initialState
        (Msg.rpcResponse PIXEL_SCALE_ID (JVal.num 2))).1.PIXEL_SCALE_ARCSEC_PER_PX
        = some 2 :=
  ⟨c2_pixel_scale_amended.2.1 initialState (RawLine.ok Msg.starLost) (by decide),
   c2_pixel_scale_amended.2.2 initialState (JVal.num 2) 2 rfl⟩

/-- Claim C3 counterexample: a boolean result for the pixel-scale request is
NOT rejected — it passes Python's isinstance numeric check (bool is a subclass
of int), sets the scale factor to 1.0, and no error is logged. -/
theorem c3_counterexample :
    handleMsg initialState (Msg.rpcResponse PIXEL_SCALE_ID (JVal.bool true))
      = ({ initialState with PIXEL_SCALE_ARCSEC_PER_PX := some 1 }, []) := by decide

/-- Claim C3 (amended): a pixel-scale result that is neither a JSON number nor
a boolean (a string, null, array, or object) is rejected with one error log
and the scale factor is unchanged (no partial update); a numeric result sets
the scale factor to its value, and a boolean result also sets it (to 1.0/0.0)
because the numeric-type check admits booleans.  No finiteness check exists. -/
theorem c3_pixel_scale_validation_amended :
    (∀ (st : BridgeState) (r : JVal), pyFloatOf r = none →
        handleMsg st (Msg.rpcResponse PIXEL_SCALE_ID r)
          = (st, [Output.logError "unexpected-get-pixel-scale-result"]))
    ∧ (∀ s, pyFloatOf (JVal.str s) = none)
    ∧ pyFloatOf JVal.null = none
    ∧ pyFloatOf JVal.arr = none
    ∧ pyFloatOf JVal.obj = none
    ∧ (∀ q, pyFloatOf (JVal.num q) = some q)
    ∧ (∀ b, pyFloatOf (JVal.bool b) = some (if b then 1 else 0))
    ∧ (∀ (st : BridgeState) (q : ℚ),
        handleMsg st (Msg.rpcResponse PIXEL_SCALE_ID (JVal.num q))
          = ({ st with PIXEL_SCALE_ARCSEC_PER_PX := some q }, [])) := by
  refine ⟨?_, fun s => rfl, rfl, rfl, rfl, fun q => rfl, fun b => rfl, ?_⟩
  · intro st r hr
    simp [handleMsg, hr, PIXEL_SCALE_ID, APP_STATE_ID]
  · intro st q
    simp [handleMsg, pyFloatOf, PIXEL_SCALE_ID, APP_STATE_ID]

/-- Witness for the amended claim C3: a string result is rejected and logged. -/
theorem c3_pixel_scale_validation_amended_witness :
    handleMsg initialState (Msg.rpcResponse PIXEL_SCALE_ID (JVal.str "4.5"))
      = (initialState, [Output.logError "unexpected-get-pixel-scale-result"]) :=
  c3_pixel_scale_validation_amended.1 initialState (JVal.str "4.5") rfl

/-- Claim C4 counterexample: in the per-connection setup sequence the reset of
the pixel scale does NOT precede the RPC sends — there is a send with no reset
before it, refuting "cleared before either of the two RPC requests is
issued". -/
theorem c4_counterexample :
    ¬(∀ i : Fin connectionSetup.length,
        isSend (connectionSetup.get i) = true →
          ∃ j : Fin connectionSetup.length,
            (j : ℕ) < (i : ℕ) ∧ connectionSetup.get j = SetupAction.resetPixelScale) := by
  decide

/-- Claim C4 (amended): the scale factor is cleared to unknown as the LAST
step of connection setup — after the two RPC requests are sent but before any
line of the new connection is read — so no response or event processed on the
new connection can observe a scale factor left over from a previous
connection. -/
theorem c4_scale_reset_amended :
    connectionSetup.getLast? = some SetupAction.resetPixelScale
    ∧ (∀ a ∈ connectionSetup.take 2, isSend a = true)
    ∧ (∀ (st : BridgeState) (lines : List RawLine),
        run_connection st lines
          = processLines { st with PIXEL_SCALE_ARCSEC_PER_PX := none } lines)
    ∧ (∀ (st : BridgeState) (lines : List RawLine) (k : ℕ),
        (∀ l ∈ lines.take k, setsPixelScale l = false) →
        (processLines { st with PIXEL_SCALE_ARCSEC_PER_PX := none }
            (lines.take k)).1.PIXEL_SCALE_ARCSEC_PER_PX = none) := by
  refine ⟨rfl, by decide, fun st lines => rfl, ?_⟩
  intro st lines k h
  rw [processLines_scale _ _ h]

/-- Witness for the amended claim C4: a stale scale factor of 9 is invisible
on the new connection. -/
theorem c4_scale_reset_amended_witness :
    (processLines
        { BridgeState.mk false none (some 9) with PIXEL_SCALE_ARCSEC_PER_PX := none }
        ([RawLine.ok Msg.starLost].take 1)).1.PIXEL_SCALE_ARCSEC_PER_PX = none :=
  c4_scale_reset_amended.2.2.2 (BridgeState.mk false none (some 9))
    [RawLine.ok Msg.starLost] 1 (by decide)

/-- Claim C5 counterexample: on clean end-of-stream the loop neither logs an
error nor waits the fixed 5-second delay — it reconnects immediately —
refuting the claim that both connection-loss modes log and wait 5 seconds. -/
theorem c5_counterexample :
    ¬((loopTail StreamOutcome.endOfStream).logsError = true
        ∧ (loopTail StreamOutcome.endOfStream).delaySeconds = 5) := by decide

/-- Claim C5 (amended): on a socket error the client closes the socket, logs
the error, waits 5 seconds and reconnects; on clean end-of-stream it closes
the socket and reconnects immediately with no error log and no delay.  The
loop repeats indefinitely with no backoff growth and no retry limit (after
any interrupt-free sequence of outcomes it is still running, with a 5-second
delay exactly on the error iterations), and only the operator interrupt stops
it. -/
theorem c5_reconnect_amended :
    loopTail StreamOutcome.socketError
        = { closesSocket := true, logsError := true, delaySeconds := 5, continuesLoop := true }
    ∧ loopTail StreamOutcome.endOfStream
        = { closesSocket := true, logsError := false, delaySeconds := 0, continuesLoop := true }
    ∧ loopTail StreamOutcome.interrupt
        = { closesSocket := true, logsError := false, delaySeconds := 0, continuesLoop := false }
    ∧ (∀ outs : List StreamOutcome,
        (∀ o ∈ outs, o ≠ StreamOutcome.interrupt) →
          runLoop outs = outs.map loopTail
          ∧ (runLoop outs).length = outs.length
          ∧ ∀ stp ∈ runLoop outs,
              stp.closesSocket = true ∧ stp.continuesLoop = true
                ∧ (stp.logsError = true → stp.delaySeconds = 5)) := by
  refine ⟨rfl, rfl, rfl, ?_⟩
  intro outs h
  have hmap := runLoop_no_interrupt outs h
  refine ⟨hmap, by rw [hmap]; simp, ?_⟩
  intro stp hstp
  rw [hmap] at hstp
  rcases List.mem_map.mp hstp with ⟨o, ho, rfl⟩
  have := h o ho
  cases o <;> simp_all [loopTail]

/-- Witness for the amended claim C5 on a concrete interrupt-free outcome
sequence. -/
theorem c5_reconnect_amended_witness :
    runLoop [StreamOutcome.socketError, StreamOutcome.endOfStream]
      = [StreamOutcome.socketError, StreamOutcome.endOfStream].map loopTail :=
  (c5_reconnect_amended.2.2.2
    [StreamOutcome.socketError, StreamOutcome.endOfStream] (by decide)).1

/-- Claim C6: a GuideStep processed while the pixel scale is unknown yields
zero publishes on each of the three arcsecond topics, while dx, dy, SNR and
AvgDist are published exactly when present in the event. -/
theorem c6_guide_step_scale_unknown (st : BridgeState) (d : GuideStepData)
    (h : st.PIXEL_SCALE_ARCSEC_PER_PX = none) :
    pubCount (handleMsg st (Msg.guideStep d)).2 (BASE_TOPIC ++ "/ra_error_arcsec") = 0
    ∧ pubCount (handleMsg st (Msg.guideStep d)).2 (BASE_TOPIC ++ "/dec_error_arcsec") = 0
    ∧ pubCount (handleMsg st (Msg.guideStep d)).2 (BASE_TOPIC ++ "/total_error_arcsec") = 0
    ∧ pubCount (handleMsg st (Msg.guideStep d)).2 (BASE_TOPIC ++ "/dx_px")
        = (if d.dx.isSome then 1 else 0)
    ∧ pubCount (handleMsg st (Msg.guideStep d)).2 (BASE_TOPIC ++ "/dy_px")
        = (if d.dy.isSome then 1 else 0)
    ∧ pubCount (handleMsg st (Msg.guideStep d)).2 (BASE_TOPIC ++ "/snr")
        = (if d.snr.isSome then 1 else 0)
    ∧ pubCount (handleMsg st (Msg.guideStep d)).2 (BASE_TOPIC ++ "/avg_dist")
        = (if d.avgDist.isSome then 1 else 0) := by
  have hgsm := guideStepMetricsOut_scale_none st d h
  refine ⟨?_, ?_, ?_, ?_, ?_, ?_, ?_⟩
  · simp only [handleMsg_guideStep_eq, pubCount_append, hgsm]
    rw [pubCount_pixelMetricsOut_ne d _ (by decide) (by decide) (by decide) (by decide),
        pubCount_gsa_ne st true _ (by decide)]
    simp [pubCount, isPublishTo]
  · simp only [handleMsg_guideStep_eq, pubCount_append, hgsm]
    rw [pubCount_pixelMetricsOut_ne d _ (by decide) (by decide) (by decide) (by decide),
        pubCount_gsa_ne st true _ (by decide)]
    simp [pubCount, isPublishTo]
  · simp only [handleMsg_guideStep_eq, pubCount_append, hgsm]
    rw [pubCount_pixelMetricsOut_ne d _ (by decide) (by decide) (by decide) (by decide),
        pubCount_gsa_ne st true _ (by decide)]
    simp [pubCount, isPublishTo]
  · simp only [handleMsg_guideStep_eq, pubCount_append, hgsm]
    rw [pubCount_pixelMetricsOut_dx, pubCount_gsa_ne st true _ (by decide)]
    simp [pubCount, isPublishTo]
  · simp only [handleMsg_guideStep_eq, pubCount_append, hgsm]
    rw [pubCount_pixelMetricsOut_dy, pubCount_gsa_ne st true _ (by decide)]
    simp [pubCount, isPublishTo]
  · simp only [handleMsg_guideStep_eq, pubCount_append, hgsm]
    rw [pubCount_pixelMetricsOut_snr, pubCount_gsa_ne st true _ (by decide)]
    simp [pubCount, isPublishTo]
  · simp only [handleMsg_guideStep_eq, pubCount_append, hgsm]
    rw [pubCount_pixelMetricsOut_avg, pubCount_gsa_ne st true _ (by decide)]
    simp [pubCount, isPublishTo]

/-- Witness for claim C6: the spec's scenario — no prior pixel-scale response,
a GuideStep with RA/Dec raw distances 2.0 and all pass-through fields
present — yields no arcsecond publish but one dx publish. -/
theorem c6_guide_step_scale_unknown_witness :
    pubCount (handleMsg initialState
        (Msg.guideStep ⟨none, some 2, some 2, some 10, some 1, some 1, some 2⟩)).2
      (BASE_TOPIC ++ "/ra_error_arcsec") = 0
    ∧ pubCount (handleMsg initialState
        (Msg.guideStep ⟨none, some 2, some 2, some 10, some 1, some 1, some 2⟩)).2
      (BASE_TOPIC ++ "/dx_px") = 1 := by
  have h := c6_guide_step_scale_unknown initialState
      ⟨none, some 2, some 2, some 10, some 1, some 1, some 2⟩ rfl
  exact ⟨h.1, by simpa using h.2.2.2.1⟩

/-- Claim C7: with a known scale s, a GuideStep carrying pixel errors ra and
dec publishes exactly ra*s, dec*s and sqrt(ra²+dec²)*s on the arcsecond
topics; with s = 0.5, ra = 3, dec = 4 the published values are 1.5, 2 and
2.5 (all four quantities, the inputs included, are exactly representable
IEEE doubles on which IEEE multiplication and square root are exact, so the
exact-rational model coincides with IEEE arithmetic here). -/
theorem c7_arcsec_values (st : BridgeState) (d : GuideStepData) (s ra dec : ℚ)
    (h : st.PIXEL_SCALE_ARCSEC_PER_PX = some s)
    (hra : d.raDistanceRaw = some ra)
    (hdec : d.decDistanceRaw = some dec) :
    Output.publish (BASE_TOPIC ++ "/ra_error_arcsec") (Payload.numeric (ra * s)) 0 true
        ∈ (handleMsg st (Msg.guideStep d)).2
    ∧ Output.publish (BASE_TOPIC ++ "/dec_error_arcsec") (Payload.numeric (dec * s)) 0 true
        ∈ (handleMsg st (Msg.guideStep d)).2
    ∧ Output.publish (BASE_TOPIC ++ "/total_error_arcsec")
          (Payload.numeric (sqrtQ (ra ^ 2 + dec ^ 2) * s)) 0 true
        ∈ (handleMsg st (Msg.guideStep d)).2
    ∧ (handleMsg { initialState with PIXEL_SCALE_ARCSEC_PER_PX := some (1/2) }
          (Msg.guideStep ⟨none, some 3, some 4, none, none, none, none⟩)).2
        = [ Output.publish (BASE_TOPIC ++ "/ra_error_arcsec")
              (Payload.numeric (3/2)) 0 true
          , Output.publish (BASE_TOPIC ++ "/dec_error_arcsec")
              (Payload.numeric 2) 0 true
          , Output.publish (BASE_TOPIC ++ "/total_error_arcsec")
              (Payload.numeric (5/2)) 0 true
          , Output.publish (BASE_TOPIC ++ "/guide_star_available")
              (Payload.text "ON") 0 true ] := by
  have hb := guideStepMetricsOut_both st d s ra dec h hra hdec
  refine ⟨?_, ?_, ?_, ?_⟩
  · simp only [handleMsg_guideStep_eq]
    rw [hb]
    simp
  · simp only [handleMsg_guideStep_eq]
    rw [hb]
    simp
  · simp only [handleMsg_guideStep_eq]
    rw [hb]
    simp
  · have h1 : (3 : ℚ) * (1/2) = 3/2 := by norm_num
    have h2 : (4 : ℚ) * (1/2) = 2 := by norm_num
    have h0 : ((3 : ℚ)^2 + 4^2) = 25 := by norm_num
    have hn : Nat.sqrt (Int.toNat 25) = 5 := by
      rw [show Int.toNat 25 = 25 from rfl]; norm_num
    have h3 : sqrtQ ((3 : ℚ)^2 + 4^2) * (1/2) = 5/2 := by
      rw [h0]; norm_num [sqrtQ, hn]
    simp only [handleMsg_guideStep_eq]
    rw [guideStepMetricsOut_both _ _ (1/2) 3 4 rfl rfl rfl, h1, h2, h3]
    simp [pixelMetricsOut, publish_numeric, publish_guide_star_available, initialState]

/-- Witness for claim C7 at the spec's concrete inputs. -/
theorem c7_arcsec_values_witness :
    Output.publish (BASE_TOPIC ++ "/ra_error_arcsec") (Payload.numeric ((3 : ℚ) * (1/2))) 0 true
      ∈ (handleMsg { initialState with PIXEL_SCALE_ARCSEC_PER_PX := some (1/2) }
          (Msg.guideStep ⟨none, some 3, some 4, none, none, none, none⟩)).2 :=
  (c7_arcsec_values _ _ (1/2) 3 4 rfl rfl rfl).1

/-- Claim C10: with a known scale, GuideStep processing is total in the
embedding and each absent field simply produces no publish on its topic — the
numeric-publish helper is a no-op for an absent value — while present
pass-through fields are published; an arcsecond topic is published exactly
when both raw pixel errors are present. -/
theorem c10_absent_fields_no_publish (st : BridgeState) (d : GuideStepData) (s : ℚ)
    (h : st.PIXEL_SCALE_ARCSEC_PER_PX = some s) :
    (∀ t, publish_numeric t none = [])
    ∧ pubCount (handleMsg st (Msg.guideStep d)).2 (BASE_TOPIC ++ "/dx_px")
        = (if d.dx.isSome then 1 else 0)
    ∧ pubCount (handleMsg st (Msg.guideStep d)).2 (BASE_TOPIC ++ "/dy_px")
        = (if d.dy.isSome then 1 else 0)
    ∧ pubCount (handleMsg st (Msg.guideStep d)).2 (BASE_TOPIC ++ "/snr")
        = (if d.snr.isSome then 1 else 0)
    ∧ pubCount (handleMsg st (Msg.guideStep d)).2 (BASE_TOPIC ++ "/avg_dist")
        = (if d.avgDist.isSome then 1 else 0)
    ∧ pubCount (handleMsg st (Msg.guideStep d)).2 (BASE_TOPIC ++ "/ra_error_arcsec")
        = (if d.raDistanceRaw.isSome && d.decDistanceRaw.isSome then 1 else 0)
    ∧ pubCount (handleMsg st (Msg.guideStep d)).2 (BASE_TOPIC ++ "/dec_error_arcsec")
        = (if d.raDistanceRaw.isSome && d.decDistanceRaw.isSome then 1 else 0)
    ∧ pubCount (handleMsg st (Msg.guideStep d)).2 (BASE_TOPIC ++ "/total_error_arcsec")
        = (if d.raDistanceRaw.isSome && d.decDistanceRaw.isSome then 1 else 0) := by
  have harcsec : ∀ t : String,
      ((BASE_TOPIC ++ "/ra_error_arcsec") == t) = false →
      ((BASE_TOPIC ++ "/dec_error_arcsec") == t) = false →
      ((BASE_TOPIC ++ "/total_error_arcsec") == t) = false →
      ((BASE_TOPIC ++ "/guide_star_available") == t) = false →
      pubCount (handleMsg st (Msg.guideStep d)).2 t
        = pubCount (pixelMetricsOut d) t := by
    intro t u1 u2 u3 u4
    simp only [handleMsg_guideStep_eq, pubCount_append]
    rw [pubCount_guideStepMetricsOut_ne st d t u1 u2 u3, pubCount_gsa_ne st true t u4]
    simp
  have harc : ∀ t : String,
      ((BASE_TOPIC ++ "/dx_px") == t) = false →
      ((BASE_TOPIC ++ "/dy_px") == t) = false →
      ((BASE_TOPIC ++ "/snr") == t) = false →
      ((BASE_TOPIC ++ "/avg_dist") == t) = false →
      ((BASE_TOPIC ++ "/guide_star_available") == t) = false →
      pubCount (handleMsg st (Msg.guideStep d)).2 t
        = pubCount (guideStepMetricsOut st d) t := by
    intro t u1 u2 u3 u4 u5
    simp only [handleMsg_guideStep_eq, pubCount_append]
    rw [pubCount_pixelMetricsOut_ne d t u1 u2 u3 u4, pubCount_gsa_ne st true t u5]
    simp
  refine ⟨fun t => rfl, ?_, ?_, ?_, ?_, ?_, ?_, ?_⟩
  · rw [harcsec _ (by decide) (by decide) (by decide) (by decide),
        pubCount_pixelMetricsOut_dx]
  · rw [harcsec _ (by decide) (by decide) (by decide) (by decide),
        pubCount_pixelMetricsOut_dy]
  · rw [harcsec _ (by decide) (by decide) (by decide) (by decide),
        pubCount_pixelMetricsOut_snr]
  · rw [harcsec _ (by decide) (by decide) (by decide) (by decide),
        pubCount_pixelMetricsOut_avg]
  · rw [harc _ (by decide) (by decide) (by decide) (by decide) (by decide)]
    rcases hra : d.raDistanceRaw with _ | ra
    · rw [guideStepMetricsOut_missing st d s h (Or.inl hra)]
      simp [hra, pubCount]
    · rcases hdec : d.decDistanceRaw with _ | dec
      · rw [guideStepMetricsOut_missing st d s h (Or.inr hdec)]
        simp [hra, hdec, pubCount]
      · rw [guideStepMetricsOut_both st d s ra dec h hra hdec]
        simp [hra, hdec, pubCount, isPublishTo,
          (by decide : ((BASE_TOPIC ++ "/dec_error_arcsec") == (BASE_TOPIC ++ "/ra_error_arcsec")) = false),
          (by decide : ((BASE_TOPIC ++ "/total_error_arcsec") == (BASE_TOPIC ++ "/ra_error_arcsec")) = false)]
  · rw [harc _ (by decide) (by decide) (by decide) (by decide) (by decide)]
    rcases hra : d.raDistanceRaw with _ | ra
    · rw [guideStepMetricsOut_missing st d s h (Or.inl hra)]
      simp [hra, pubCount]
    · rcases hdec : d.decDistanceRaw with _ | dec
      · rw [guideStepMetricsOut_missing st d s h (Or.inr hdec)]
        simp [hra, hdec, pubCount]
      · rw [guideStepMetricsOut_both st d s ra dec h hra hdec]
        simp [hra, hdec, pubCount, isPublishTo,
          (by decide : ((BASE_TOPIC ++ "/ra_error_arcsec") == (BASE_TOPIC ++ "/dec_error_arcsec")) = false),
          (by decide : ((BASE_TOPIC ++ "/total_error_arcsec") == (BASE_TOPIC ++ "/dec_error_arcsec")) = false)]
  · rw [harc _ (by decide) (by decide) (by decide) (by decide) (by decide)]
    rcases hra : d.raDistanceRaw with _ | ra
    · rw [guideStepMetricsOut_missing st d s h (Or.inl hra)]
      simp [hra, pubCount]
    · rcases hdec : d.decDistanceRaw with _ | dec
      · rw [guideStepMetricsOut_missing st d s h (Or.inr hdec)]
        simp [hra, hdec, pubCount]
      · rw [guideStepMetricsOut_both st d s ra dec h hra hdec]
        simp [hra, hdec, pubCount, isPublishTo,
          (by decide : ((BASE_TOPIC ++ "/ra_error_arcsec") == (BASE_TOPIC ++ "/total_error_arcsec")) = false),
          (by decide : ((BASE_TOPIC ++ "/dec_error_arcsec") == (BASE_TOPIC ++ "/total_error_arcsec")) = false)]

/-- Witness for claim C10: scale known (1.0), SNR and dx present, everything
else absent — dx is published once, and no arcsecond or dy/avg publish
occurs. -/
theorem c10_absent_fields_no_publish_witness :
    pubCount (handleMsg { initialState with PIXEL_SCALE_ARCSEC_PER_PX := some 1 }
        (Msg.guideStep ⟨none, none, none, some 5, none, some 1, none⟩)).2
      (BASE_TOPIC ++ "/dx_px") = 1
    ∧ pubCount (handleMsg { initialState with PIXEL_SCALE_ARCSEC_PER_PX := some 1 }
        (Msg.guideStep ⟨none, none, none, some 5, none, some 1, none⟩)).2
      (BASE_TOPIC ++ "/ra_error_arcsec") = 0 := by
  have h := c10_absent_fields_no_publish
      { initialState with PIXEL_SCALE_ARCSEC_PER_PX := some 1 }
      ⟨none, none, none, some 5, none, some 1, none⟩ 1 rfl
  exact ⟨by simpa using h.2.1, by simpa using h.2.2.2.2.2.1⟩

/-- Claim C8: a malformed-UTF-8 or malformed-JSON line produces exactly one
warning, leaves the state unchanged, does not drop the connection, and the
publishes of the surrounding lines are exactly those produced with the bad
line absent. -/
theorem c8_malformed_line_skipped (st : BridgeState) (pre post : List RawLine) :
    processLine st RawLine.badJson = (st, [Output.logWarn "json-decode-error"])
    ∧ processLine st RawLine.badUtf8 = (st, [Output.logWarn "unicode-decode-error"])
    ∧ (processLines st (pre ++ RawLine.badJson :: post)).1
        = (processLines st (pre ++ post)).1
    ∧ publishesOf (processLines st (pre ++ RawLine.badJson :: post)).2
        = publishesOf (processLines st (pre ++ post)).2
    ∧ warnCount (processLines st (pre ++ RawLine.badJson :: post)).2
        = warnCount (processLines st (pre ++ post)).2 + 1
    ∧ (processLines st (pre ++ RawLine.badUtf8 :: post)).1
        = (processLines st (pre ++ post)).1
    ∧ publishesOf (processLines st (pre ++ RawLine.badUtf8 :: post)).2
        = publishesOf (processLines st (pre ++ post)).2
    ∧ warnCount (processLines st (pre ++ RawLine.badUtf8 :: post)).2
        = warnCount (processLines st (pre ++ post)).2 + 1 := by
  refine ⟨rfl, rfl, ?_, ?_, ?_, ?_, ?_, ?_⟩
  · simp [processLines_append, processLines_badJson]
  · simp [processLines_append, processLines_badJson,
      publishesOf_append, publishesOf_cons_warn]
  · simp [processLines_append, processLines_badJson,
      warnCount_append, warnCount_cons_warn]
    omega
  · simp [processLines_append, processLines_badUtf8]
  · simp [processLines_append, processLines_badUtf8,
      publishesOf_append, publishesOf_cons_warn]
  · simp [processLines_append, processLines_badUtf8,
      warnCount_append, warnCount_cons_warn]
    omega

/-- Claim C9: discovery metadata is published at most once per process: the
first successful run publishes the 8 retained config messages and sets the
flag, and once the flag is set every later run — including the one triggered
by a later transport reconnect callback — performs no publishes at all. -/
theorem c9_discovery_published_once :
    publish_discovery true = (true, [])
    ∧ (publish_discovery false).1 = true
    ∧ (publish_discovery false).2 ≠ []
    ∧ configPubCount (on_connect false 0).2 = 8
    ∧ (∀ b : Bool, (publish_discovery (publish_discovery b).1).2 = [])
    ∧ (∀ b : Bool, (on_connect b 0).1 = true)
    ∧ (∀ b : Bool, configPubCount (on_connect (on_connect b 0).1 0).2 = 0) := by
  decide

end PHD2Bridge
